import Mathlib

/-!
Verification of the tab/content-surface lifecycle controller of this
repository (`TabHelper` in the tab-helper translation unit) against its
natural-language specification.

The embedding translates the controller's member functions into pure Lean
functions over an explicit `State`.  External collaborators (the window
list, the tab-strip model, the guest surface, the tab manager) are
represented by the parts of their state the controller reads or writes,
and by an `Effect` trace recording the instructions the controller issues
to them, in program order.
-/

namespace TabSpec

/-- Identity of a content surface (a `WebContents*` in the source). -/
abbrev SurfaceId := Nat

/-- Identity of a window / `Browser` (its `session_id().id()`). -/
abbrev WindowId := Int

/-- `TabStripModel::kNoTab`. -/
def kNoTab : Int := -1

/-- The per-surface logical state owned by the controller
(`TabHelper`'s mutable fields, source lines 83-87 for the constructor
defaults).  `browser_` is `none` when the helper holds a null `Browser*`;
holding `some w` also models the helper being registered as an observer of
window `w`'s strip and native window (`UpdateBrowser` registers,
`OnBrowserRemoved` deregisters).  `swid` is the session window id stored
through `SetWindowId` (set to `-1` in the constructor). -/
structure TabHelper where
  index_ : Int
  pinned_ : Bool
  is_placeholder_ : Bool
  window_closing_ : Bool
  browser_ : Option WindowId
  swid : Int
deriving DecidableEq, Repr

/-- Constructor state of a fresh `TabHelper` (source lines 78-97). -/
def defaultTabHelper : TabHelper :=
  { index_ := kNoTab
    pinned_ := false
    is_placeholder_ := false
    window_closing_ := false
    browser_ := none
    swid := -1 }

/-- The slice of the backing `TabViewGuest` state the controller reads or
writes: whether the guest is attached to a strip slot, its attach
parameters (opaque to the controller, deep-copied in `TabReplacedAt`),
and the can-run-in-detached-state flag. -/
structure Guest where
  attached : Bool
  attach_params : Nat
  can_run_detached : Bool
deriving DecidableEq, Repr

/-- A guest that has not yet been attached anywhere. -/
def defaultGuest : Guest :=
  { attached := false, attach_params := 0, can_run_detached := false }

/-- A `Browser`: its session id and the ordered strip of surfaces held by
its `TabStripModel`. -/
structure Window where
  wid : WindowId
  strip : List SurfaceId
deriving DecidableEq, Repr

/-- Instructions the controller issues to its collaborators, in program
order. -/
inductive Effect where
  /-- `web_contents()->UserGestureDone()` -/
  | userGestureDone (sid : SurfaceId)
  /-- `guest()->Load()` — begin loading the real content. -/
  | beginLoad (sid : SurfaceId)
  /-- `old_contents->WasHidden()` -/
  | wasHidden (sid : SurfaceId)
  /-- `window->RequestToClosePage()` -/
  | requestClosePage (w : WindowId)
  /-- `browser()->window()->Deactivate()` -/
  | deactivateWindow (w : WindowId)
  /-- `browser()->window()->Hide()` -/
  | hideWindow (w : WindowId)
  /-- a `DestroyTab` task posted to the task runner -/
  | postDestroyTask (sid : SurfaceId)
  /-- `guest->Destroy(true)` actually tearing the surface down -/
  | destroyGuest (sid : SurfaceId)
  /-- `old_guest->DetachGuest()` (guest-level detach instruction) -/
  | guestDetach (sid : SurfaceId)
  /-- `new_guest->AttachGuest(...)` (guest-level attach instruction) -/
  | guestAttach (sid : SurfaceId)
  /-- `new_guest->TabIdChanged()` -/
  | tabIdChanged (sid : SurfaceId)
  /-- `tab_strip_model()->SetTabPinned(strip_index, pinned)` -/
  | setTabPinnedInStrip (w : WindowId) (stripIndex : Int) (pinned : Bool)
deriving DecidableEq, Repr

/-- Whole-system state: the window registry (`BrowserList`, in insertion
order, with its last-active pointer), the per-surface records and guest
slices, each surface's navigation history (a list of opaque entries), the
tab manager's discard set, the `browser_shutdown::IsTryingToQuit` flag,
and a counter handing out fresh surface ids. -/
structure State where
  windows : List Window
  lastActive : Option WindowId
  tabs : List (SurfaceId × TabHelper)
  guests : List (SurfaceId × Guest)
  nav : List (SurfaceId × List Nat)
  discarded : List SurfaceId
  shuttingDown : Bool
  nextId : SurfaceId
deriving DecidableEq, Repr

/-- Association-list read with a default (used for the maps in `State`;
every lookup performed by a theorem below is at a key that is present or
freshly inserted). -/
def assocGet (d : α) : List (Nat × α) → Nat → α
  | [], _ => d
  | (k, v) :: t, k' => if k = k' then v else assocGet d t k'

/-- Association-list write: replaces the first binding of the key, or
appends a new binding at the end. -/
def assocSet : List (Nat × α) → Nat → α → List (Nat × α)
  | [], k, v => [(k, v)]
  | (k', v') :: t, k, v =>
      if k' = k then (k, v) :: t else (k', v') :: assocSet t k v

@[simp] theorem assocGet_assocSet_same (d : α) (l : List (Nat × α)) (k : Nat) (v : α) :
    assocGet d (assocSet l k v) k = v := by
  induction l with
  | nil => simp [assocGet, assocSet]
  | cons p t ih =>
      obtain ⟨k', v'⟩ := p
      by_cases h : k' = k <;> simp [assocGet, assocSet, h, ih]

theorem assocGet_assocSet_ne (d : α) (l : List (Nat × α)) {k k' : Nat} (v : α)
    (h : k ≠ k') : assocGet d (assocSet l k v) k' = assocGet d l k' := by
  induction l with
  | nil => simp [assocGet, assocSet, h]
  | cons p t ih =>
      obtain ⟨k₀, v₀⟩ := p
      by_cases h₀ : k₀ = k
      · subst h₀
        simp [assocGet, assocSet, h]
      · simp [assocGet, assocSet, h₀, ih]

/-- The record of surface `sid` (`TabHelper::FromWebContents`). -/
def State.tab (s : State) (sid : SurfaceId) : TabHelper :=
  assocGet defaultTabHelper s.tabs sid

/-- The guest slice of surface `sid` (`TabHelper::guest()`). -/
def State.guest (s : State) (sid : SurfaceId) : Guest :=
  assocGet defaultGuest s.guests sid

/-- The navigation history of surface `sid`. -/
def State.navOf (s : State) (sid : SurfaceId) : List Nat :=
  assocGet [] s.nav sid

def State.setTab (s : State) (sid : SurfaceId) (r : TabHelper) : State :=
  { s with tabs := assocSet s.tabs sid r }

def State.setGuest (s : State) (sid : SurfaceId) (g : Guest) : State :=
  { s with guests := assocSet s.guests sid g }

def State.setNav (s : State) (sid : SurfaceId) (n : List Nat) : State :=
  { s with nav := assocSet s.nav sid n }

@[simp] theorem State.tab_setTab_same (s : State) (sid : SurfaceId) (r : TabHelper) :
    (s.setTab sid r).tab sid = r := by
  simp [State.tab, State.setTab]

theorem State.tab_setTab_ne (s : State) {sid sid' : SurfaceId} (r : TabHelper)
    (h : sid ≠ sid') : (s.setTab sid r).tab sid' = s.tab sid' := by
  simp [State.tab, State.setTab, assocGet_assocSet_ne _ _ _ h]

@[simp] theorem State.guest_setGuest_same (s : State) (sid : SurfaceId) (g : Guest) :
    (s.setGuest sid g).guest sid = g := by
  simp [State.guest, State.setGuest]

theorem State.guest_setGuest_ne (s : State) {sid sid' : SurfaceId} (g : Guest)
    (h : sid ≠ sid') : (s.setGuest sid g).guest sid' = s.guest sid' := by
  simp [State.guest, State.setGuest, assocGet_assocSet_ne _ _ _ h]

@[simp] theorem State.tab_setGuest (s : State) (sid sid' : SurfaceId) (g : Guest) :
    (s.setGuest sid g).tab sid' = s.tab sid' := rfl

@[simp] theorem State.guest_setTab (s : State) (sid sid' : SurfaceId) (r : TabHelper) :
    (s.setTab sid r).guest sid' = s.guest sid' := rfl

@[simp] theorem State.tab_setNav (s : State) (sid sid' : SurfaceId) (n : List Nat) :
    (s.setNav sid n).tab sid' = s.tab sid' := rfl

@[simp] theorem State.guest_setNav (s : State) (sid sid' : SurfaceId) (n : List Nat) :
    (s.setNav sid n).guest sid' = s.guest sid' := rfl

@[simp] theorem State.windows_setTab (s : State) (sid : SurfaceId) (r : TabHelper) :
    (s.setTab sid r).windows = s.windows := rfl

@[simp] theorem State.windows_setGuest (s : State) (sid : SurfaceId) (g : Guest) :
    (s.setGuest sid g).windows = s.windows := rfl

@[simp] theorem State.windows_setNav (s : State) (sid : SurfaceId) (n : List Nat) :
    (s.setNav sid n).windows = s.windows := rfl

@[simp] theorem State.lastActive_setTab (s : State) (sid : SurfaceId) (r : TabHelper) :
    (s.setTab sid r).lastActive = s.lastActive := rfl

@[simp] theorem State.lastActive_setGuest (s : State) (sid : SurfaceId) (g : Guest) :
    (s.setGuest sid g).lastActive = s.lastActive := rfl

@[simp] theorem State.lastActive_setNav (s : State) (sid : SurfaceId) (n : List Nat) :
    (s.setNav sid n).lastActive = s.lastActive := rfl

@[simp] theorem State.shuttingDown_setTab (s : State) (sid : SurfaceId) (r : TabHelper) :
    (s.setTab sid r).shuttingDown = s.shuttingDown := rfl

@[simp] theorem State.shuttingDown_setGuest (s : State) (sid : SurfaceId) (g : Guest) :
    (s.setGuest sid g).shuttingDown = s.shuttingDown := rfl

@[simp] theorem State.shuttingDown_setNav (s : State) (sid : SurfaceId) (n : List Nat) :
    (s.setNav sid n).shuttingDown = s.shuttingDown := rfl

@[simp] theorem State.discarded_setTab (s : State) (sid : SurfaceId) (r : TabHelper) :
    (s.setTab sid r).discarded = s.discarded := rfl

@[simp] theorem State.discarded_setGuest (s : State) (sid : SurfaceId) (g : Guest) :
    (s.setGuest sid g).discarded = s.discarded := rfl

@[simp] theorem State.nextId_setTab (s : State) (sid : SurfaceId) (r : TabHelper) :
    (s.setTab sid r).nextId = s.nextId := rfl

@[simp] theorem State.nextId_setGuest (s : State) (sid : SurfaceId) (g : Guest) :
    (s.setGuest sid g).nextId = s.nextId := rfl

@[simp] theorem State.nextId_setNav (s : State) (sid : SurfaceId) (n : List Nat) :
    (s.setNav sid n).nextId = s.nextId := rfl

@[simp] theorem State.tabs_setGuest (s : State) (sid : SurfaceId) (g : Guest) :
    (s.setGuest sid g).tabs = s.tabs := rfl

@[simp] theorem State.tabs_setNav (s : State) (sid : SurfaceId) (n : List Nat) :
    (s.setNav sid n).tabs = s.tabs := rfl

@[simp] theorem State.guests_setTab (s : State) (sid : SurfaceId) (r : TabHelper) :
    (s.setTab sid r).guests = s.guests := rfl

@[simp] theorem State.guests_setNav (s : State) (sid : SurfaceId) (n : List Nat) :
    (s.setNav sid n).guests = s.guests := rfl

@[simp] theorem State.nav_setTab (s : State) (sid : SurfaceId) (r : TabHelper) :
    (s.setTab sid r).nav = s.nav := rfl

@[simp] theorem State.nav_setGuest (s : State) (sid : SurfaceId) (g : Guest) :
    (s.setGuest sid g).nav = s.nav := rfl

@[simp] theorem State.navOf_setTab (s : State) (sid sid' : SurfaceId) (r : TabHelper) :
    (s.setTab sid r).navOf sid' = s.navOf sid' := rfl

@[simp] theorem State.navOf_setGuest (s : State) (sid sid' : SurfaceId) (g : Guest) :
    (s.setGuest sid g).navOf sid' = s.navOf sid' := rfl

@[simp] theorem State.navOf_setNav_same (s : State) (sid : SurfaceId) (n : List Nat) :
    (s.setNav sid n).navOf sid = n := by
  simp [State.navOf, State.setNav]

theorem State.navOf_setNav_ne (s : State) {sid sid' : SurfaceId} (n : List Nat)
    (h : sid ≠ sid') : (s.setNav sid n).navOf sid' = s.navOf sid' := by
  simp [State.navOf, State.setNav, assocGet_assocSet_ne _ _ _ h]

/-- Locate a window by session id (`BrowserList` scan, first match). -/
def State.findWindow (s : State) (wid : WindowId) : Option Window :=
  s.windows.find? (fun w => w.wid = wid)

/-- Replace the strip of the first window with the given id. -/
def setWindowStrip : List Window → WindowId → List SurfaceId → List Window
  | [], _, _ => []
  | w :: t, wid, strip =>
      if w.wid = wid then { w with strip := strip } :: t
      else w :: setWindowStrip t wid strip

/-- `TabHelper::get_tab_strip_index` (source lines 634-639): the position
of this surface in its browser's strip, or `kNoTab` when no browser is
set or the surface is not in the strip. -/
def getTabStripIndexOf (s : State) (sid : SurfaceId) : Int :=
  match (s.tab sid).browser_ with
  | none => kNoTab
  | some wid =>
      match s.findWindow wid with
      | none => kNoTab
      | some w =>
          match w.strip.findIdx? (fun x => x == sid) with
          | some i => Int.ofNat i
          | none => kNoTab

/-- Static `TabHelper::GetTabStripIndex(window_id, index)` (source lines
151-161): scan all records for one whose logical index and session window
id match, and return its strip position.  The source iterates tab
contents across all browsers; the model iterates the record registry. -/
def GetTabStripIndex (s : State) (window_id index : Int) : Int :=
  match s.tabs.find? (fun p => p.2.index_ = index ∧ p.2.swid = window_id) with
  | some p => getTabStripIndexOf s p.1
  | none => kNoTab

/-- The helpers registered as observers of window `wid`'s strip: exactly
those whose `browser_` points at it (`UpdateBrowser` adds the observer,
`OnBrowserRemoved` removes it). -/
def observersOf (s : State) (wid : WindowId) : List SurfaceId :=
  (s.tabs.filter (fun p => p.2.browser_ = some wid)).map Prod.fst

/-- Deliver a strip notification to each observer in turn, threading the
state and concatenating the issued effects. -/
def dispatch (f : State → SurfaceId → State × List Effect) :
    List SurfaceId → State → List Effect → State × List Effect
  | [], s, e => (s, e)
  | ob :: t, s, e =>
      let r := f s ob
      dispatch f t r.1 (e ++ r.2)

/-- `TabHelper::SetPlaceholder` (source lines 220-225). -/
def SetPlaceholder (s : State) (sid : SurfaceId) (is_placeholder : Bool) : State :=
  let s1 := s.setTab sid { s.tab sid with is_placeholder_ := is_placeholder }
  if is_placeholder = false then
    s1.setGuest sid { s1.guest sid with can_run_detached := true }
  else s1

/-- `TabHelper::MaybeRequestWindowClose` (source lines 227-232): issues a
close-page request to the owning window when a window close is pending.
No controller state changes. -/
def MaybeRequestWindowClose (s : State) (sid : SurfaceId) : List Effect :=
  match (s.tab sid).browser_ with
  | some w => if (s.tab sid).window_closing_ then [Effect.requestClosePage w] else []
  | none => []

/-- `TabHelper::MaybeAttachOrCreatePinnedTab` (source lines 268-299): the
pinned-tab reconciliation routine.  The guard is the source's early
return; on promotion the placeholder flag is cleared
(`SetPlaceholder(false)`), a user-gesture-done signal is sent and the
guest is told to load. -/
def MaybeAttachOrCreatePinnedTab (s : State) (sid : SurfaceId) : State × List Effect :=
  if (s.tab sid).window_closing_ = true ∨ (s.tab sid).pinned_ = false ∨
      (s.tab sid).is_placeholder_ = false ∨ (s.guest sid).attached = false ∨
      (s.tab sid).browser_ ≠ s.lastActive then
    (s, [])
  else
    (SetPlaceholder s sid false, [Effect.userGestureDone sid, Effect.beginLoad sid])

/-- `TabHelper::UpdateBrowser` (source lines 365-369): point `browser_` at
the window and register as observer (observer registration is the
`browser_` field itself in this model). -/
def UpdateBrowser (s : State) (sid : SurfaceId) (b : WindowId) : State :=
  s.setTab sid { s.tab sid with browser_ := some b }

/-- `TabHelper::OnBrowserRemoved` (source lines 250-261): re-check the
pending window close, then, when the removed browser is ours, deregister
and clear `browser_` and `index_`. -/
def OnBrowserRemoved (s : State) (sid : SurfaceId) (b : Option WindowId) :
    State × List Effect :=
  let e0 := MaybeRequestWindowClose s sid
  match (s.tab sid).browser_ with
  | some w =>
      if b = some w then
        (s.setTab sid { s.tab sid with browser_ := none, index_ := kNoTab }, e0)
      else (s, e0)
  | none => (s, e0)

/-- `TabHelper::TabReplacedAt` (source lines 301-330), as executed by the
helper of surface `sid` on a strip replace notification.  Acts only when
the replaced contents is its own surface; then transfers `index_` and
`pinned_` to the new helper, detaches its own window bookkeeping,
re-attaches the new helper under the old browser, hides the old surface,
carries the attach parameters over, and finally instructs the old guest
to detach and the new guest to attach.  A null `browser_` would be
dereferenced by the source's `UpdateBrowser` call; the model skips the
re-attach in that (unreachable) case. -/
def TabReplacedAt (s : State) (sid old new : SurfaceId) (_index : Int) :
    State × List Effect :=
  if old ≠ sid then (s, [])
  else
    let r := s.tab sid
    let old_browser := r.browser_
    let old_params := (s.guest sid).attach_params
    let s1 := s.setTab new { s.tab new with index_ := r.index_, pinned_ := r.pinned_ }
    let r2 := OnBrowserRemoved s1 sid old_browser
    let s3 := match old_browser with
      | some b => UpdateBrowser r2.1 new b
      | none => r2.1
    let s4 := s3.setGuest new { s3.guest new with attach_params := old_params }
    (s4, r2.2 ++ [Effect.wasHidden old, Effect.tabIdChanged new,
                  Effect.guestDetach old, Effect.guestAttach new])

/-- `TabStripModel::ReplaceWebContentsAt` as the controller relies on it:
replace the occupant of the slot and notify every strip observer with
`TabReplacedAt`.  The source `CHECK`s that the index is in range; an
out-of-range index is modelled as a no-op and excluded by hypotheses
where theorems use this operation. -/
def ReplaceWebContentsAt (s : State) (wid : WindowId) (stripIdx : Int)
    (newSid : SurfaceId) : State × List Effect :=
  match s.findWindow wid with
  | none => (s, [])
  | some w =>
      if stripIdx < 0 then (s, [])
      else
        match w.strip.get? stripIdx.toNat with
        | none => (s, [])
        | some old =>
            let s1 := { s with
              windows := setWindowStrip s.windows wid (w.strip.set stripIdx.toNat newSid) }
            dispatch (fun st ob => TabReplacedAt st ob old newSid stripIdx)
              (observersOf s1 wid) s1 []

/-- `TabHelper::AttachGuest` (source lines 163-175).  Precondition
(`DCHECK`): the guest is not attached.  Scans the registry for the window
with the given session id; absent means `false` with no side effects,
otherwise the logical index is recorded and the strip slot found by
`GetTabStripIndex` is replaced with this surface. -/
def AttachGuest (s : State) (sid : SurfaceId) (window_id index : Int) :
    State × Bool × List Effect :=
  match s.windows.find? (fun w => w.wid = window_id) with
  | none => (s, false, [])
  | some w =>
      let s1 := s.setTab sid { s.tab sid with index_ := index }
      let r := ReplaceWebContentsAt s1 w.wid (GetTabStripIndex s1 window_id index) sid
      (r.1, true, r.2)

/-- The placeholder-manufacturing prefix of `DetachGuest` (source lines
179-194): materialize the null surface (`CreateNullContents`) in
constructor state, copy the navigation history into it
(`CopyStateFrom`), transfer `index_`, `pinned_` and `window_closing_` to
it, clear this record's `window_closing_`, and mark the new record a
placeholder. -/
def detachPlaceholderSetup (s : State) (sid : SurfaceId) : State :=
  let r := s.tab sid
  let nullId := s.nextId
  let s1 : State := { s with nextId := s.nextId + 1 }
  let s2 := s1.setTab nullId defaultTabHelper
  let s3 := s2.setGuest nullId defaultGuest
  let s4 := s3.setNav nullId (s.navOf sid)
  let s5 := s4.setTab nullId { s4.tab nullId with
    index_ := r.index_, pinned_ := r.pinned_, window_closing_ := r.window_closing_ }
  let s6 := s5.setTab sid { s5.tab sid with window_closing_ := false }
  SetPlaceholder s6 nullId true

/-- `TabHelper::DetachGuest` (source lines 177-202): when attached,
manufacture a placeholder surface (`CreateNullContents`) seeded with a
copy of this surface's navigation history, transfer `index_`, `pinned_`
and `window_closing_` to it, clear our own `window_closing_`, mark it a
placeholder, replace our strip slot with it, and return it.  When not
attached, return `none` and change nothing. -/
def DetachGuest (s : State) (sid : SurfaceId) :
    State × Option SurfaceId × List Effect :=
  if (s.guest sid).attached = true then
    let nullId := s.nextId
    let s7 := detachPlaceholderSetup s sid
    let rep := match (s7.tab sid).browser_ with
      | some w => ReplaceWebContentsAt s7 w (getTabStripIndexOf s7 sid) nullId
      | none => (s7, [])  -- the source would dereference a null browser_ here
    (rep.1, some nullId, rep.2)
  else (s, none, [])

/-- Remove a key from an association list. -/
def assocErase : List (Nat × α) → Nat → List (Nat × α)
  | [], _ => []
  | (k', v) :: t, k => if k' = k then t else (k', v) :: assocErase t k

/-- Modelled from the spec: the body of `TabViewGuest::Destroy`, the
guest-level destruction invoked by the posted `TabHelper::DestroyTab`
task.  `TabViewGuest` is repository code that is not part of this
snapshot.  Per the spec, the posted destruction "becomes a no-op if
reconciliation has since flipped the placeholder to non-placeholder real
content before the posted task runs — the task must re-check the flag":
the surface is torn down only when its record is still a placeholder. -/
def guestDestroy (s : State) (sid : SurfaceId) : State × List Effect :=
  if (s.tab sid).is_placeholder_ = true then
    ({ s with tabs := assocErase s.tabs sid, guests := assocErase s.guests sid,
              nav := assocErase s.nav sid },
     [Effect.destroyGuest sid])
  else (s, [])

/-- Static `TabHelper::DestroyTab` (source lines 144-149): look up the
guest (`DCHECK`) and invoke its `Destroy(true)`.  The body of
`TabViewGuest::Destroy` is repository code that is not part of this
snapshot; see `guestDestroy`. -/
def DestroyTab (s : State) (sid : SurfaceId) : State × List Effect :=
  guestDestroy s sid

/-- `TabHelper::DidAttach` (source lines 204-218): re-check the pending
window close; then, for a placeholder, forbid running detached and either
post asynchronous destruction (not pinned, not discarded) or run the
pinned-tab reconciliation. -/
def DidAttach (s : State) (sid : SurfaceId) : State × List Effect :=
  let e0 := MaybeRequestWindowClose s sid
  if (s.tab sid).is_placeholder_ = true then
    let s1 := s.setGuest sid { s.guest sid with can_run_detached := false }
    if (s.tab sid).pinned_ = false ∧ sid ∉ s.discarded then
      (s1, e0 ++ [Effect.postDestroyTask sid])
    else
      let r := MaybeAttachOrCreatePinnedTab s1 sid
      (r.1, e0 ++ r.2)
  else (s, e0)

/-- `TabHelper::WillCloseWindow` (source lines 234-248): always clears
`window_closing_`; when the tab is pinned, not a placeholder, owned by a
browser, shutdown is not in progress and more than one window is open,
the window is deactivated and hidden.  The `*prevent_default = true`
write is commented out in the source, so the out-parameter is returned
unchanged. -/
def WillCloseWindow (s : State) (sid : SurfaceId) (prevent_default : Bool) :
    State × Bool × List Effect :=
  let s1 := s.setTab sid { s.tab sid with window_closing_ := false }
  match (s1.tab sid).browser_ with
  | some w =>
      if (s1.tab sid).pinned_ = true ∧ (s1.tab sid).is_placeholder_ = false ∧
          s1.shuttingDown = false ∧ 1 < s1.windows.length then
        (s1, prevent_default, [Effect.deactivateWindow w, Effect.hideWindow w])
      else (s1, prevent_default, [])
  | none => (s1, prevent_default, [])

/-- `TabHelper::TabDetachedAt` (source lines 332-337). -/
def TabDetachedAt (s : State) (sid contents : SurfaceId) (_index : Int) :
    State × List Effect :=
  if contents ≠ sid then (s, [])
  else OnBrowserRemoved s sid ((s.tab sid).browser_)

/-- `TabHelper::TabPinnedStateChanged` (source lines 339-346). -/
def TabPinnedStateChanged (s : State) (sid contents : SurfaceId) :
    State × List Effect :=
  if contents ≠ sid then (s, [])
  else MaybeAttachOrCreatePinnedTab s sid

/-- `TabHelper::SetPinned` (source lines 413-427): no-op when unchanged;
otherwise store the flag, mirror it into the strip (which notifies every
strip observer with `TabPinnedStateChanged`; the strip's own pin
bookkeeping and any reorder it performs are external and not read by the
controller), then set or clear the placeholder flag. -/
def SetPinned (s : State) (sid : SurfaceId) (pinned : Bool) : State × List Effect :=
  if pinned = (s.tab sid).pinned_ then (s, [])
  else
    let s1 := s.setTab sid { s.tab sid with pinned_ := pinned }
    let r : State × List Effect :=
      match (s1.tab sid).browser_ with
      | some w =>
          dispatch (fun st ob => TabPinnedStateChanged st ob sid)
            (observersOf s1 w) s1
            [Effect.setTabPinnedInStrip w (getTabStripIndexOf s1 sid) pinned]
      | none => (s1, [])
    if pinned = true then (SetPlaceholder r.1 sid true, r.2)
    else (SetPlaceholder r.1 sid false, r.2)

/-!  Spec-side conditions.  These are written from the specification's
words, to be compared against the source-derived functions above. -/

/-- The spec's preconditions for pinned-tab promotion: "the tab is
pinned, is currently a placeholder, its backing surface is attached to
some slot, a window-close is not pending on it, and its owning window
equals the registry's current last-active window" (the last comparison is
the source's pointer equality `browser_ ==
BrowserList::GetInstance()->GetLastActive()`, `none` standing for a null
pointer on either side). -/
def specPromotionPrecond (s : State) (sid : SurfaceId) : Bool :=
  (s.tab sid).pinned_ && (s.tab sid).is_placeholder_ &&
  (s.guest sid).attached && !(s.tab sid).window_closing_ &&
  decide ((s.tab sid).browser_ = s.lastActive)

/-- The spec's protected state for a closing window: the tab has an
owning window, is pinned, is not a placeholder, the process is not
shutting down, and more than one window is open. -/
def specProtectedClose (s : State) (sid : SurfaceId) : Bool :=
  (s.tab sid).browser_.isSome && (s.tab sid).pinned_ &&
  !(s.tab sid).is_placeholder_ && !s.shuttingDown &&
  decide (1 < s.windows.length)

/-!  Concrete states used by witnesses and counterexamples. -/

/-- One window (id 1, strip `[0]`, last active); surface 0 is a pinned,
attached placeholder owned by it, with navigation history `[10, 11]`. -/
def stA : State :=
  { windows := [{ wid := 1, strip := [0] }]
    lastActive := some 1
    tabs := [(0, { index_ := 0, pinned_ := true, is_placeholder_ := true,
                   window_closing_ := false, browser_ := some 1, swid := 1 })]
    guests := [(0, { attached := true, attach_params := 5, can_run_detached := false })]
    nav := [(0, [10, 11])]
    discarded := []
    shuttingDown := false
    nextId := 1 }

/-- Like `stA` but surface 0 is unpinned and not a placeholder, with a
window close pending. -/
def stB : State :=
  { windows := [{ wid := 1, strip := [0] }]
    lastActive := some 1
    tabs := [(0, { index_ := 0, pinned_ := false, is_placeholder_ := false,
                   window_closing_ := true, browser_ := some 1, swid := 1 })]
    guests := [(0, { attached := true, attach_params := 0, can_run_detached := true })]
    nav := []
    discarded := []
    shuttingDown := false
    nextId := 1 }

/-- Two windows; surface 0 is a pinned, non-placeholder tab of window 1;
surface 7 is a detached fresh surface.  Surface 0's logical index is 5. -/
def stC : State :=
  { windows := [{ wid := 1, strip := [0, 3] }, { wid := 2, strip := [3] }]
    lastActive := some 1
    tabs := [(0, { index_ := 5, pinned_ := true, is_placeholder_ := false,
                   window_closing_ := false, browser_ := some 1, swid := 1 }),
             (7, defaultTabHelper)]
    guests := [(0, { attached := true, attach_params := 3, can_run_detached := true }),
               (7, defaultGuest)]
    nav := []
    discarded := []
    shuttingDown := false
    nextId := 8 }

/-- Surface 0 is an attached, unpinned placeholder in the last-active
window: toggling its pin on satisfies every reconciliation precondition
during the pin-change notification. -/
def stD : State :=
  { windows := [{ wid := 1, strip := [0] }]
    lastActive := some 1
    tabs := [(0, { index_ := 0, pinned_ := false, is_placeholder_ := true,
                   window_closing_ := false, browser_ := some 1, swid := 1 })]
    guests := [(0, { attached := true, attach_params := 0, can_run_detached := false })]
    nav := []
    discarded := []
    shuttingDown := false
    nextId := 1 }

/-- Window 2 holds surface 3 (logical index 4, session window id 2);
surface 9 is a fresh, unattached surface about to be attached. -/
def stE : State :=
  { windows := [{ wid := 2, strip := [3] }]
    lastActive := some 2
    tabs := [(3, { index_ := 4, pinned_ := false, is_placeholder_ := false,
                   window_closing_ := false, browser_ := some 2, swid := 2 }),
             (9, defaultTabHelper)]
    guests := [(3, { attached := true, attach_params := 1, can_run_detached := true }),
               (9, defaultGuest)]
    nav := []
    discarded := []
    shuttingDown := false
    nextId := 10 }

/-- An unpinned, undiscarded attached placeholder (the superfluous-
placeholder case of `DidAttach`). -/
def stF : State :=
  { windows := [{ wid := 1, strip := [0] }]
    lastActive := some 1
    tabs := [(0, { index_ := 0, pinned_ := false, is_placeholder_ := true,
                   window_closing_ := false, browser_ := some 1, swid := 1 })]
    guests := [(0, { attached := true, attach_params := 0, can_run_detached := false })]
    nav := []
    discarded := []
    shuttingDown := false
    nextId := 1 }

/-!  Claim C1. -/

/-- When the spec's promotion preconditions hold, the source guard of
`MaybeAttachOrCreatePinnedTab` does not fire. -/
theorem promotion_guard_of_precond {s : State} {sid : SurfaceId}
    (h : specPromotionPrecond s sid = true) :
    ¬((s.tab sid).window_closing_ = true ∨ (s.tab sid).pinned_ = false ∨
      (s.tab sid).is_placeholder_ = false ∨ (s.guest sid).attached = false ∨
      (s.tab sid).browser_ ≠ s.lastActive) := by
  simp only [specPromotionPrecond, Bool.and_eq_true, Bool.not_eq_true',
    decide_eq_true_eq] at h
  obtain ⟨⟨⟨⟨h1, h2⟩, h3⟩, h4⟩, h5⟩ := h
  simp [h1, h2, h3, h4, h5]

/-- Promotion clears the placeholder flag. -/
theorem promotion_clears_placeholder {s : State} {sid : SurfaceId}
    (h : specPromotionPrecond s sid = true) :
    ((MaybeAttachOrCreatePinnedTab s sid).1.tab sid).is_placeholder_ = false := by
  simp only [MaybeAttachOrCreatePinnedTab, if_neg (promotion_guard_of_precond h),
    SetPlaceholder]
  simp

/-- Claim C1: `MaybeAttachOrCreatePinnedTab` promotes the tab if and only
if the tab is pinned, its record is a placeholder, its backing surface is
attached, no window close is pending on it, and its owning window is the
registry's current last-active window; when all hold it clears
`is_placeholder`, signals user-gesture-completed and instructs the
surface to begin loading exactly once; when any precondition fails it
returns with no state change. -/
theorem claim1_promotion_iff (s : State) (sid : SurfaceId) :
    (specPromotionPrecond s sid = true →
      MaybeAttachOrCreatePinnedTab s sid =
        (SetPlaceholder s sid false,
         [Effect.userGestureDone sid, Effect.beginLoad sid]) ∧
      ((MaybeAttachOrCreatePinnedTab s sid).1.tab sid).is_placeholder_ = false ∧
      (MaybeAttachOrCreatePinnedTab s sid).2.count (Effect.beginLoad sid) = 1) ∧
    (specPromotionPrecond s sid = false →
      MaybeAttachOrCreatePinnedTab s sid = (s, [])) := by
  constructor
  · intro h
    have hguard := promotion_guard_of_precond h
    refine ⟨by simp only [MaybeAttachOrCreatePinnedTab, if_neg hguard], ?_, ?_⟩
    · simp only [MaybeAttachOrCreatePinnedTab, if_neg hguard, SetPlaceholder]
      simp
    · simp only [MaybeAttachOrCreatePinnedTab, if_neg hguard]
      simp [List.count_cons]
  · intro h
    simp only [specPromotionPrecond, Bool.and_eq_false_iff, Bool.not_eq_false',
      decide_eq_false_iff_not] at h
    have hguard : (s.tab sid).window_closing_ = true ∨ (s.tab sid).pinned_ = false ∨
        (s.tab sid).is_placeholder_ = false ∨ (s.guest sid).attached = false ∨
        (s.tab sid).browser_ ≠ s.lastActive := by
      rcases h with ((((h | h) | h) | h) | h)
      · exact Or.inr (Or.inl (by simpa using h))
      · exact Or.inr (Or.inr (Or.inl (by simpa using h)))
      · exact Or.inr (Or.inr (Or.inr (Or.inl (by simpa using h))))
      · exact Or.inl h
      · exact Or.inr (Or.inr (Or.inr (Or.inr h)))
    simp only [MaybeAttachOrCreatePinnedTab, if_pos hguard]

/-- Witness for claim C1 at the concrete state `stA`: both the promotion
branch (preconditions hold) and its conclusions. -/
theorem claim1_promotion_iff_witness :
    specPromotionPrecond stA 0 = true ∧
    MaybeAttachOrCreatePinnedTab stA 0 =
      (SetPlaceholder stA 0 false, [Effect.userGestureDone 0, Effect.beginLoad 0]) :=
  ⟨by decide, ((claim1_promotion_iff stA 0).1 (by decide)).1⟩

/-!  Claim C6. -/

/-- Claim C6: invoking `MaybeAttachOrCreatePinnedTab` twice in a row with
no intervening state change has the effect of invoking it once — the
second call changes nothing and issues no effects, in particular no
second load instruction. -/
theorem claim6_reconciliation_idempotent (s : State) (sid : SurfaceId) :
    MaybeAttachOrCreatePinnedTab (MaybeAttachOrCreatePinnedTab s sid).1 sid =
      ((MaybeAttachOrCreatePinnedTab s sid).1, []) := by
  by_cases hguard : (s.tab sid).window_closing_ = true ∨ (s.tab sid).pinned_ = false ∨
      (s.tab sid).is_placeholder_ = false ∨ (s.guest sid).attached = false ∨
      (s.tab sid).browser_ ≠ s.lastActive
  · simp only [MaybeAttachOrCreatePinnedTab, if_pos hguard]
  · have h1 : MaybeAttachOrCreatePinnedTab s sid =
        (SetPlaceholder s sid false,
         [Effect.userGestureDone sid, Effect.beginLoad sid]) := by
      simp only [MaybeAttachOrCreatePinnedTab, if_neg hguard]
    rw [h1]
    have h2 : ((SetPlaceholder s sid false).tab sid).is_placeholder_ = false := by
      simp [SetPlaceholder]
    simp only [MaybeAttachOrCreatePinnedTab]
    rw [if_pos]
    exact Or.inr (Or.inr (Or.inl h2))

/-!  Claim C10. -/

/-- Claim C10: every strip-observer callback delivered for a surface
other than this record's own surface leaves this record's state entirely
unchanged and issues no operation: `TabReplacedAt`, `TabDetachedAt` and
`TabPinnedStateChanged` all return the state unmodified with an empty
effect trace. -/
theorem claim10_frame_other_surface (s : State) (sid other new : SurfaceId)
    (i j : Int) (h : other ≠ sid) :
    TabReplacedAt s sid other new i = (s, []) ∧
    TabDetachedAt s sid other j = (s, []) ∧
    TabPinnedStateChanged s sid other = (s, []) := by
  refine ⟨?_, ?_, ?_⟩
  · simp only [TabReplacedAt, if_pos h]
  · simp only [TabDetachedAt, if_pos h]
  · simp only [TabPinnedStateChanged, if_pos h]

/-- Witness for claim C10: a callback for surface 7 leaves surface 0's
record at `stA` untouched. -/
theorem claim10_frame_other_surface_witness :
    TabReplacedAt stA 0 7 9 2 = (stA, []) ∧
    TabDetachedAt stA 0 7 0 = (stA, []) ∧
    TabPinnedStateChanged stA 0 7 = (stA, []) :=
  claim10_frame_other_surface stA 0 7 9 2 0 (by decide)

/-!  Claim C5. -/

/-- The pending-close re-check issues at most a close-page request, never
a destruction or a posted task. -/
theorem mrwc_effects_shape (s : State) (sid : SurfaceId) :
    MaybeRequestWindowClose s sid = [] ∨
    ∃ w, MaybeRequestWindowClose s sid = [Effect.requestClosePage w] := by
  unfold MaybeRequestWindowClose
  split
  · split
    · exact Or.inr ⟨_, rfl⟩
    · exact Or.inl rfl
  · exact Or.inl rfl

theorem postDestroy_not_mem_mrwc (s : State) (sid x : SurfaceId) :
    Effect.postDestroyTask x ∉ MaybeRequestWindowClose s sid := by
  rcases mrwc_effects_shape s sid with h | ⟨w, h⟩ <;> simp [h]

theorem destroyGuest_not_mem_mrwc (s : State) (sid x : SurfaceId) :
    Effect.destroyGuest x ∉ MaybeRequestWindowClose s sid := by
  rcases mrwc_effects_shape s sid with h | ⟨w, h⟩ <;> simp [h]

/-- Reconciliation never posts a destruction task. -/
theorem postDestroy_not_mem_maybeAttach (s : State) (sid x : SurfaceId) :
    Effect.postDestroyTask x ∉ (MaybeAttachOrCreatePinnedTab s sid).2 := by
  unfold MaybeAttachOrCreatePinnedTab
  split <;> simp

/-- Claim C5: when `DidAttach` runs on a placeholder record, a tab that
is neither pinned nor discarded has its surface's destruction posted
asynchronously (no immediate destruction: the record survives and no
destroy instruction is issued), and otherwise the controller invokes
`MaybeAttachOrCreatePinnedTab` (and posts nothing) — exactly one of the
two branches for every placeholder attach. -/
theorem claim5_didattach_placeholder_branches (s : State) (sid : SurfaceId)
    (hpl : (s.tab sid).is_placeholder_ = true) :
    ((s.tab sid).pinned_ = false ∧ sid ∉ s.discarded →
      DidAttach s sid =
        (s.setGuest sid { s.guest sid with can_run_detached := false },
         MaybeRequestWindowClose s sid ++ [Effect.postDestroyTask sid]) ∧
      Effect.postDestroyTask sid ∈ (DidAttach s sid).2 ∧
      Effect.destroyGuest sid ∉ (DidAttach s sid).2 ∧
      (DidAttach s sid).1.tab sid = s.tab sid) ∧
    (¬((s.tab sid).pinned_ = false ∧ sid ∉ s.discarded) →
      DidAttach s sid =
        ((MaybeAttachOrCreatePinnedTab
            (s.setGuest sid { s.guest sid with can_run_detached := false }) sid).1,
         MaybeRequestWindowClose s sid ++
           (MaybeAttachOrCreatePinnedTab
             (s.setGuest sid { s.guest sid with can_run_detached := false }) sid).2) ∧
      Effect.postDestroyTask sid ∉ (DidAttach s sid).2) := by
  constructor
  · intro h
    have heq : DidAttach s sid =
        (s.setGuest sid { s.guest sid with can_run_detached := false },
         MaybeRequestWindowClose s sid ++ [Effect.postDestroyTask sid]) := by
      simp only [DidAttach, if_pos hpl, if_pos h]
    refine ⟨heq, ?_, ?_, ?_⟩
    · rw [heq]; simp
    · rw [heq]
      simp only [List.mem_append]
      rintro (hc | hc)
      · exact destroyGuest_not_mem_mrwc s sid sid hc
      · simp at hc
    · rw [heq]; simp
  · intro h
    have heq : DidAttach s sid =
        ((MaybeAttachOrCreatePinnedTab
            (s.setGuest sid { s.guest sid with can_run_detached := false }) sid).1,
         MaybeRequestWindowClose s sid ++
           (MaybeAttachOrCreatePinnedTab
             (s.setGuest sid { s.guest sid with can_run_detached := false }) sid).2) := by
      simp only [DidAttach, if_pos hpl, if_neg h]
    refine ⟨heq, ?_⟩
    rw [heq]
    simp only [List.mem_append]
    rintro (hc | hc)
    · exact postDestroy_not_mem_mrwc s sid sid hc
    · exact postDestroy_not_mem_maybeAttach _ sid sid hc

/-- Witness for claim C5 at `stF` (unpinned, undiscarded placeholder):
the destruction of the superfluous placeholder is posted, nothing is
destroyed during the notification, and the record survives. -/
theorem claim5_didattach_placeholder_branches_witness :
    DidAttach stF 0 =
      (stF.setGuest 0 { stF.guest 0 with can_run_detached := false },
       MaybeRequestWindowClose stF 0 ++ [Effect.postDestroyTask 0]) ∧
    Effect.postDestroyTask 0 ∈ (DidAttach stF 0).2 ∧
    Effect.destroyGuest 0 ∉ (DidAttach stF 0).2 ∧
    (DidAttach stF 0).1.tab 0 = stF.tab 0 :=
  (claim5_didattach_placeholder_branches stF 0 (by decide)).1 (by decide)

/-!  Claim C3. -/

/-- Claim C3: a posted placeholder-destruction task re-checks the
record's `is_placeholder` flag when it runs and destroys nothing when
reconciliation has since flipped the record to non-placeholder real
content; in particular a surface promoted by
`MaybeAttachOrCreatePinnedTab` after its destruction was posted is never
destroyed by that task.  (`TabViewGuest::Destroy`, the body behind the
posted `DestroyTab`, is modelled from the spec; see `guestDestroy`.) -/
theorem claim3_posted_destroy_recheck (s s' : State) (sid : SurfaceId)
    (h : (s'.tab sid).is_placeholder_ = false) :
    DestroyTab s' sid = (s', []) ∧
    (specPromotionPrecond s sid = true →
      ((MaybeAttachOrCreatePinnedTab s sid).1.tab sid).is_placeholder_ = false ∧
      DestroyTab (MaybeAttachOrCreatePinnedTab s sid).1 sid =
        ((MaybeAttachOrCreatePinnedTab s sid).1, [])) := by
  constructor
  · simp only [DestroyTab, guestDestroy, h]
    simp
  · intro hpc
    have hflip := promotion_clears_placeholder hpc
    refine ⟨hflip, ?_⟩
    simp only [DestroyTab, guestDestroy, hflip]
    simp

/-- Witness for claim C3: at `stA`, promotion runs and the posted task
then destroys nothing. -/
theorem claim3_posted_destroy_recheck_witness :
    DestroyTab (MaybeAttachOrCreatePinnedTab stA 0).1 0 =
      ((MaybeAttachOrCreatePinnedTab stA 0).1, []) :=
  ((claim3_posted_destroy_recheck stA (MaybeAttachOrCreatePinnedTab stA 0).1 0
      (by decide)).2 (by decide)).2

/-!  Claim C4. -/

/-- Counterexample to claim C4 as stated: at `stB` the tab is not in the
protected state (it is unpinned), yet `WillCloseWindow` does not leave
all state unchanged — the pending window-close flag is cleared
unconditionally on entry. -/
theorem claim4_counterexample :
    (stB.tab 0).pinned_ = false ∧
    (stB.tab 0).window_closing_ = true ∧
    ((WillCloseWindow stB 0 false).1.tab 0).window_closing_ = false ∧
    (WillCloseWindow stB 0 false).1 ≠ stB := by decide

/-- Characterization of `WillCloseWindow`: the resulting state always has
the pending-close flag cleared and nothing else changed, the
prevent-default out-parameter is returned unchanged, and the effects are
deactivate-and-hide exactly in the spec's protected state. -/
theorem willCloseWindow_eq (s : State) (sid : SurfaceId) (pd : Bool) :
    WillCloseWindow s sid pd =
      (s.setTab sid { s.tab sid with window_closing_ := false }, pd,
       if specProtectedClose s sid = true then
         [Effect.deactivateWindow ((s.tab sid).browser_.getD 0),
          Effect.hideWindow ((s.tab sid).browser_.getD 0)]
       else []) := by
  rcases hbr : (s.tab sid).browser_ with _ | w
  · have hp : specProtectedClose s sid = false := by
      simp [specProtectedClose, hbr]
    unfold WillCloseWindow
    simp [hbr, hp]
  · by_cases hc : (s.tab sid).pinned_ = true ∧ (s.tab sid).is_placeholder_ = false ∧
        s.shuttingDown = false ∧ 1 < s.windows.length
    · have hp : specProtectedClose s sid = true := by
        simp [specProtectedClose, hbr, hc.1, hc.2.1, hc.2.2.1, hc.2.2.2]
      unfold WillCloseWindow
      simp [hbr, hp, hc.1, hc.2.1, hc.2.2.1, hc.2.2.2]
    · have hp : specProtectedClose s sid = false := by
        rw [Bool.eq_false_iff]
        intro hcontra
        apply hc
        simp only [specProtectedClose, Bool.and_eq_true, Bool.not_eq_true',
          decide_eq_true_eq] at hcontra
        exact ⟨hcontra.1.1.1.2, hcontra.1.1.2, hcontra.1.2, hcontra.2⟩
      unfold WillCloseWindow
      rw [if_neg (show ¬(specProtectedClose s sid = true) by simp [hp])]
      simp only [State.tab_setTab_same, hbr]
      rw [if_neg]
      intro hcontra
      apply hc
      simpa using hcontra

/-- Claim C4 as amended: `WillCloseWindow` unconditionally clears the
tab's pending window-close flag (the one state change it always makes);
beyond that, if the closing window owns this tab and the tab is pinned
and not a placeholder, the process is not shutting down and more than
one window is open, the owning window is deactivated and hidden (the
window set is untouched and no window-removed bookkeeping fires during
the call; the prevent-default out-parameter is returned unchanged); if
the tab is not in this protected state, no effect is issued. -/
theorem claim4_close_coordination (s : State) (sid : SurfaceId) (pd : Bool) :
    ((WillCloseWindow s sid pd).1 =
        s.setTab sid { s.tab sid with window_closing_ := false }) ∧
    ((WillCloseWindow s sid pd).1.windows = s.windows) ∧
    ((WillCloseWindow s sid pd).2.1 = pd) ∧
    (specProtectedClose s sid = true →
      ∃ w, (s.tab sid).browser_ = some w ∧
        (WillCloseWindow s sid pd).2.2 =
          [Effect.deactivateWindow w, Effect.hideWindow w]) ∧
    (specProtectedClose s sid = false → (WillCloseWindow s sid pd).2.2 = []) := by
  rw [willCloseWindow_eq]
  refine ⟨rfl, by simp [State.setTab], rfl, ?_, ?_⟩
  · intro h
    have hsome : (s.tab sid).browser_.isSome = true := by
      simp only [specProtectedClose, Bool.and_eq_true] at h
      exact h.1.1.1.1
    rcases Option.isSome_iff_exists.mp hsome with ⟨w, hw⟩
    exact ⟨w, hw, by simp [h, hw]⟩
  · intro h
    simp [h]

/-- Witness for claim C4 at `stA` pinned non-placeholder...  -/
theorem claim4_close_coordination_witness :
    specProtectedClose stC 0 = true ∧
    (∃ w, (stC.tab 0).browser_ = some w ∧
      (WillCloseWindow stC 0 false).2.2 =
        [Effect.deactivateWindow w, Effect.hideWindow w]) :=
  ⟨by decide, (claim4_close_coordination stC 0 false).2.2.2.1 (by decide)⟩

/-!  Generic lemmas about observer dispatch. -/

/-- A dispatch in which every delivery is a no-op from any state changes
nothing. -/
theorem dispatch_skip (f : State → SurfaceId → State × List Effect) (act : SurfaceId)
    (hskip : ∀ st ob, ob ≠ act → f st ob = (st, [])) :
    ∀ obs, (∀ ob ∈ obs, ob ≠ act) → ∀ s e, dispatch f obs s e = (s, e) := by
  intro obs
  induction obs with
  | nil => intro _ s e; rfl
  | cons ob t ih =>
      intro h s e
      have hob := h ob (List.mem_cons_self ob t)
      simp only [dispatch, hskip _ _ hob]
      rw [List.append_nil]
      exact ih (fun x hx => h x (List.mem_cons_of_mem ob hx)) s e

/-- When exactly one observer in the list reacts, the dispatch is that
single delivery. -/
theorem dispatch_single (f : State → SurfaceId → State × List Effect) (act : SurfaceId)
    (hskip : ∀ st ob, ob ≠ act → f st ob = (st, [])) :
    ∀ l1 l2 s e, act ∉ l1 → act ∉ l2 →
      dispatch f (l1 ++ act :: l2) s e = ((f s act).1, e ++ (f s act).2) := by
  intro l1
  induction l1 with
  | nil =>
      intro l2 s e _ h2
      simp only [List.nil_append, dispatch]
      exact dispatch_skip f act hskip l2 (fun x hx => fun hcontra => h2 (hcontra ▸ hx))
        (f s act).1 (e ++ (f s act).2)
  | cons ob t ih =>
      intro l2 s e h1 h2
      have hob : ob ≠ act := fun hcontra => h1 (hcontra ▸ List.mem_cons_self ob t)
      simp only [List.cons_append, dispatch, hskip _ _ hob]
      rw [List.append_nil]
      exact ih l2 s e (fun hx => h1 (List.mem_cons_of_mem ob hx)) h2

/-- A dispatch whose deliveries all fix the given state is the identity
on it. -/
theorem dispatch_fixed (f : State → SurfaceId → State × List Effect) (s : State)
    (hfix : ∀ ob, f s ob = (s, [])) :
    ∀ obs e, dispatch f obs s e = (s, e) := by
  intro obs
  induction obs with
  | nil => intro e; rfl
  | cons ob t ih =>
      intro e
      simp only [dispatch, hfix ob]
      rw [List.append_nil]
      exact ih e

/-!  Claim C8. -/

/-- The pending-close re-check depends only on this record. -/
theorem mrwc_congr {s s' : State} {sid : SurfaceId} (h : s'.tab sid = s.tab sid) :
    MaybeRequestWindowClose s' sid = MaybeRequestWindowClose s sid := by
  unfold MaybeRequestWindowClose
  rw [h]

theorem mrwc_setTab_ne (s : State) {k sid : SurfaceId} (r : TabHelper)
    (h : k ≠ sid) :
    MaybeRequestWindowClose (s.setTab k r) sid = MaybeRequestWindowClose s sid :=
  mrwc_congr (State.tab_setTab_ne s r h)

/-- Counterexample to claim C8 as stated: at `stC`, where this record's
logical `slot_index` is 5, `TabReplacedAt(old = 0, new = 7, slotIndex = 2)`
gives the new surface's record slot index 5 — the old record's index,
not the callback's `slotIndex` parameter. -/
theorem claim8_counterexample :
    (stC.tab 0).index_ = 5 ∧
    ((TabReplacedAt stC 0 0 7 2).1.tab 7).index_ = 5 ∧
    ((TabReplacedAt stC 0 0 7 2).1.tab 7).index_ ≠ 2 := by decide

/-- Explicit form of `TabReplacedAt` acting on its own surface: the full
bookkeeping transfer, with the guest instructions trailing in the
trace. -/
theorem tabReplacedAt_self_eq (s : State) (sid new : SurfaceId) (i : Int)
    (w : WindowId) (hne : new ≠ sid) (hb : (s.tab sid).browser_ = some w) :
    TabReplacedAt s sid sid new i =
      ((((s.setTab new { s.tab new with index_ := (s.tab sid).index_, pinned_ := (s.tab sid).pinned_ }).setTab sid { s.tab sid with browser_ := none, index_ := kNoTab }).setTab new { s.tab new with index_ := (s.tab sid).index_, pinned_ := (s.tab sid).pinned_, browser_ := some w }).setGuest new { s.guest new with attach_params := (s.guest sid).attach_params },
       MaybeRequestWindowClose s sid ++
         [Effect.wasHidden sid, Effect.tabIdChanged new,
          Effect.guestDetach sid, Effect.guestAttach new]) := by
  have hne2 : sid ≠ new := Ne.symm hne
  unfold TabReplacedAt OnBrowserRemoved UpdateBrowser
  rw [if_neg (show ¬(sid ≠ sid) by simp)]
  simp only [State.tab_setTab_same, State.tab_setTab_ne, State.guest_setTab,
    mrwc_setTab_ne, hne, hne2, ne_eq, not_false_iff, hb]
  simp [State.tab_setTab_same, State.tab_setTab_ne, hne, hne2]

/-- `TabReplacedAt` delivered to a helper other than the replaced
surface's is a no-op. -/
theorem tabReplacedAt_skip (st : State) (ob old new : SurfaceId) (i : Int)
    (h : old ≠ ob) : TabReplacedAt st ob old new i = (st, []) := by
  unfold TabReplacedAt
  rw [if_pos h]

/-- Claim C8 as amended: for every `TabReplacedAt(old, new, slotIndex)`
where `old` is this record's surface (and a browser owns it), after the
call the new surface's record carries the old record's `slot_index` (the
`slotIndex` parameter is not consulted) and its `pinned_` flag, and is
bookkept under the same window, while the old record is unattached
(window membership cleared, slot index the no-slot sentinel); the attach
parameters are carried over, and the full bookkeeping transfer is
completed in the returned state while the old surface's guest-detach
instruction is only the penultimate element of the emitted trace,
preceded by the hide of the old surface. -/
theorem claim8_replace_transfer (s : State) (sid new : SurfaceId) (i : Int)
    (w : WindowId) (hne : new ≠ sid) (hb : (s.tab sid).browser_ = some w) :
    ((TabReplacedAt s sid sid new i).1.tab new).index_ = (s.tab sid).index_ ∧
    ((TabReplacedAt s sid sid new i).1.tab new).pinned_ = (s.tab sid).pinned_ ∧
    ((TabReplacedAt s sid sid new i).1.tab new).browser_ = some w ∧
    ((TabReplacedAt s sid sid new i).1.tab sid).browser_ = none ∧
    ((TabReplacedAt s sid sid new i).1.tab sid).index_ = kNoTab ∧
    ((TabReplacedAt s sid sid new i).1.guest new).attach_params =
      (s.guest sid).attach_params ∧
    (TabReplacedAt s sid sid new i).2 =
      MaybeRequestWindowClose s sid ++
        [Effect.wasHidden sid, Effect.tabIdChanged new,
         Effect.guestDetach sid, Effect.guestAttach new] := by
  have hne2 : sid ≠ new := Ne.symm hne
  rw [tabReplacedAt_self_eq s sid new i w hne hb]
  refine ⟨?_, ?_, ?_, ?_, ?_, ?_, rfl⟩ <;>
    simp [State.tab_setTab_ne, hne, hne2]

/-- Witness for claim C8 at `stC` (this record owned by window 1, logical
index 5; new surface 7). -/
theorem claim8_replace_transfer_witness :
    ((TabReplacedAt stC 0 0 2 (1 : Int)).1.tab 2).index_ = (stC.tab 0).index_ ∧
    ((TabReplacedAt stC 0 0 2 (1 : Int)).1.tab 2).browser_ = some 1 ∧
    ((TabReplacedAt stC 0 0 2 (1 : Int)).1.tab 0).browser_ = none := by
  have h := claim8_replace_transfer stC 0 2 (1 : Int) 1 (by decide) (by decide)
  exact ⟨h.1, h.2.2.1, h.2.2.2.1⟩

/-!  Claim C9. -/

theorem map_fst_assocSet_of_mem {α : Type} (l : List (Nat × α)) (k : Nat) (v : α)
    (h : k ∈ l.map Prod.fst) :
    (assocSet l k v).map Prod.fst = l.map Prod.fst := by
  induction l with
  | nil => simp at h
  | cons p t ih =>
      obtain ⟨k₀, v₀⟩ := p
      by_cases h₀ : k₀ = k
      · subst h₀
        simp [assocSet]
      · have hmem : k ∈ t.map Prod.fst := by
          simp only [List.map_cons, List.mem_cons] at h
          rcases h with h | h
          · exact absurd h.symm h₀
          · exact h
        simp [assocSet, h₀, ih hmem]

/-- Counterexample to claim C9 as stated: at `stD` surface 0 is an
attached tab (it is already a placeholder, in the last-active window);
`SetPinned(true)` issues a load instruction immediately, during the
pin-change strip notification. -/
theorem claim9_counterexample :
    (stD.tab 0).browser_ = some 1 ∧
    (stD.guest 0).attached = true ∧
    Effect.beginLoad 0 ∈ (SetPinned stD 0 true).2 := by decide

/-- The pin-change delivery fixes a state in which this record is not a
promotion candidate (unpinned or not a placeholder). -/
theorem tabPinnedStateChanged_fixed (s : State) (sid : SurfaceId)
    (h : (s.tab sid).pinned_ = false ∨ (s.tab sid).is_placeholder_ = false) :
    ∀ ob, TabPinnedStateChanged s ob sid = (s, []) := by
  intro ob
  by_cases hob : sid = ob
  · subst hob
    unfold TabPinnedStateChanged
    rw [if_neg (show ¬(sid ≠ sid) by simp)]
    unfold MaybeAttachOrCreatePinnedTab
    rw [if_pos]
    rcases h with h | h
    · exact Or.inr (Or.inl h)
    · exact Or.inr (Or.inr (Or.inl h))
  · unfold TabPinnedStateChanged
    rw [if_pos hob]

/-- Claim C9 as amended: `SetPinned(false)` on an attached, pinned,
non-placeholder tab never sets `is_placeholder` and creates no surface
(record set and id counter unchanged) and loads nothing; `SetPinned(true)`
on an attached, non-placeholder tab makes the tab a placeholder target
candidate for reconciliation (pinned and placeholder afterwards) without
immediately loading content.  (An attached tab that is *already* a
placeholder meeting every reconciliation precondition is instead promoted
— a load fires during the pin-change notification — as the
counterexample shows.) -/
theorem claim9_pin_toggle (s : State) (sid : SurfaceId) (w : WindowId)
    (hb : (s.tab sid).browser_ = some w)
    (hpl : (s.tab sid).is_placeholder_ = false)
    (hmem : sid ∈ s.tabs.map Prod.fst) :
    ((s.tab sid).pinned_ = true →
      ((SetPinned s sid false).1.tab sid).is_placeholder_ = false ∧
      (SetPinned s sid false).1.nextId = s.nextId ∧
      (SetPinned s sid false).1.tabs.map Prod.fst = s.tabs.map Prod.fst ∧
      Effect.beginLoad sid ∉ (SetPinned s sid false).2) ∧
    ((s.tab sid).pinned_ = false →
      ((SetPinned s sid true).1.tab sid).pinned_ = true ∧
      ((SetPinned s sid true).1.tab sid).is_placeholder_ = true ∧
      (SetPinned s sid true).1.nextId = s.nextId ∧
      (SetPinned s sid true).1.tabs.map Prod.fst = s.tabs.map Prod.fst ∧
      Effect.beginLoad sid ∉ (SetPinned s sid true).2) := by
  constructor
  · intro hpin
    have hfix := tabPinnedStateChanged_fixed
      (s.setTab sid { index_ := (s.tab sid).index_, pinned_ := false, is_placeholder_ := (s.tab sid).is_placeholder_, window_closing_ := (s.tab sid).window_closing_, browser_ := some w, swid := (s.tab sid).swid })
      sid (Or.inl (by simp))
    have heq : SetPinned s sid false =
        (SetPlaceholder (s.setTab sid { index_ := (s.tab sid).index_, pinned_ := false, is_placeholder_ := (s.tab sid).is_placeholder_, window_closing_ := (s.tab sid).window_closing_, browser_ := some w, swid := (s.tab sid).swid }) sid false,
         [Effect.setTabPinnedInStrip w
            (getTabStripIndexOf (s.setTab sid { index_ := (s.tab sid).index_, pinned_ := false, is_placeholder_ := (s.tab sid).is_placeholder_, window_closing_ := (s.tab sid).window_closing_, browser_ := some w, swid := (s.tab sid).swid }) sid)
            false]) := by
      unfold SetPinned
      rw [if_neg (by simp [hpin])]
      simp only [State.tab_setTab_same]
      rw [hb]
      simp only []
      rw [if_neg (by simp)]
      rw [dispatch_fixed _ _ hfix]
    rw [heq]
    refine ⟨by simp [SetPlaceholder], by simp [SetPlaceholder], ?_, by simp⟩
    have hm1 : sid ∈ (assocSet s.tabs sid { index_ := (s.tab sid).index_, pinned_ := false, is_placeholder_ := (s.tab sid).is_placeholder_, window_closing_ := (s.tab sid).window_closing_, browser_ := some w, swid := (s.tab sid).swid }).map Prod.fst := by
      rw [map_fst_assocSet_of_mem _ _ _ hmem]
      exact hmem
    simp only [SetPlaceholder, State.tab_setTab_same, eq_self_iff_true, if_true,
      State.tabs_setGuest, State.setTab, State.setGuest]
    rw [map_fst_assocSet_of_mem _ _ _ hm1, map_fst_assocSet_of_mem _ _ _ hmem]
  · intro hpin
    have hfix := tabPinnedStateChanged_fixed
      (s.setTab sid { index_ := (s.tab sid).index_, pinned_ := true, is_placeholder_ := (s.tab sid).is_placeholder_, window_closing_ := (s.tab sid).window_closing_, browser_ := some w, swid := (s.tab sid).swid })
      sid (Or.inr (by simp [hpl]))
    have heq : SetPinned s sid true =
        (SetPlaceholder (s.setTab sid { index_ := (s.tab sid).index_, pinned_ := true, is_placeholder_ := (s.tab sid).is_placeholder_, window_closing_ := (s.tab sid).window_closing_, browser_ := some w, swid := (s.tab sid).swid }) sid true,
         [Effect.setTabPinnedInStrip w
            (getTabStripIndexOf (s.setTab sid { index_ := (s.tab sid).index_, pinned_ := true, is_placeholder_ := (s.tab sid).is_placeholder_, window_closing_ := (s.tab sid).window_closing_, browser_ := some w, swid := (s.tab sid).swid }) sid)
            true]) := by
      unfold SetPinned
      rw [if_neg (by simp [hpin])]
      simp only [State.tab_setTab_same]
      rw [hb]
      simp only []
      rw [if_pos trivial]
      rw [dispatch_fixed _ _ hfix]
    rw [heq]
    refine ⟨by simp [SetPlaceholder], by simp [SetPlaceholder], by simp [SetPlaceholder], ?_, by simp⟩
    have hm1 : sid ∈ (assocSet s.tabs sid { index_ := (s.tab sid).index_, pinned_ := true, is_placeholder_ := (s.tab sid).is_placeholder_, window_closing_ := (s.tab sid).window_closing_, browser_ := some w, swid := (s.tab sid).swid }).map Prod.fst := by
      rw [map_fst_assocSet_of_mem _ _ _ hmem]
      exact hmem
    simp only [SetPlaceholder, State.tab_setTab_same]
    rw [if_neg (by simp)]
    simp only [State.setTab]
    rw [map_fst_assocSet_of_mem _ _ _ hm1, map_fst_assocSet_of_mem _ _ _ hmem]

/-- Witness for claim C9 at `stC` (surface 0: attached, pinned, not a
placeholder) and `stE` (surface 3: attached, unpinned, not a
placeholder). -/
theorem claim9_pin_toggle_witness :
    (((SetPinned stC 0 false).1.tab 0).is_placeholder_ = false ∧
      Effect.beginLoad 0 ∉ (SetPinned stC 0 false).2) ∧
    (((SetPinned stE 3 true).1.tab 3).pinned_ = true ∧
      ((SetPinned stE 3 true).1.tab 3).is_placeholder_ = true ∧
      Effect.beginLoad 3 ∉ (SetPinned stE 3 true).2) := by
  have h1 := (claim9_pin_toggle stC 0 1 (by decide) (by decide) (by decide)).1 (by decide)
  have h2 := (claim9_pin_toggle stE 3 2 (by decide) (by decide) (by decide)).2 (by decide)
  exact ⟨⟨h1.1, h1.2.2.2⟩, h2.1, h2.2.1, h2.2.2.2.2⟩

/-!  Toolkit for the strip-replace cascade (claims C2 and C7). -/

/-- Replacing a window's strip moves the found window to the same
position with the new strip. -/
theorem findWindow_setWindowStrip (ws : List Window) (wid : WindowId)
    (win : Window) (strip : List SurfaceId)
    (h : ws.find? (fun w => w.wid = wid) = some win) :
    (setWindowStrip ws wid strip).find? (fun w => w.wid = wid) =
      some { win with strip := strip } := by
  induction ws with
  | nil => simp at h
  | cons w t ih =>
      by_cases hw : w.wid = wid
      · rw [List.find?_cons_of_pos _ (by simpa using hw)] at h
        injection h with h
        subst h
        simp only [setWindowStrip, if_pos hw]
        rw [List.find?_cons_of_pos _ (by simpa using hw)]
      · rw [List.find?_cons_of_neg _ (by simpa using hw)] at h
        simp only [setWindowStrip, if_neg hw]
        rw [List.find?_cons_of_neg _ (by simpa using hw)]
        exact ih h

/-- Rewriting a binding to one with the same `browser_` leaves the
observer list of every window unchanged (association-list level). -/
theorem filter_map_assocSet (l : List (Nat × TabHelper)) (k : Nat) (r : TabHelper)
    (wid : WindowId)
    (h : r.browser_ = (assocGet defaultTabHelper l k).browser_) :
    ((assocSet l k r).filter (fun p => p.2.browser_ = some wid)).map Prod.fst =
      (l.filter (fun p => p.2.browser_ = some wid)).map Prod.fst := by
  induction l with
  | nil =>
      have h' : r.browser_ = none := by simpa [assocGet, defaultTabHelper] using h
      simp [assocSet, List.filter_cons, h']
  | cons p t ih =>
      obtain ⟨k₀, v₀⟩ := p
      by_cases h₀ : k₀ = k
      · subst h₀
        have h' : r.browser_ = v₀.browser_ := by simpa [assocGet] using h
        simp only [assocSet, eq_self_iff_true, if_true]
        by_cases hv : v₀.browser_ = some wid
        · rw [List.filter_cons_of_pos (by simp [h', hv]),
            List.filter_cons_of_pos (by simp [hv])]
          simp
        · rw [List.filter_cons_of_neg (by simp [h', hv]),
            List.filter_cons_of_neg (by simp [hv])]
      · have h' : r.browser_ = (assocGet defaultTabHelper t k).browser_ := by
          simpa [assocGet, h₀] using h
        simp only [assocSet, if_neg h₀]
        by_cases hv : v₀.browser_ = some wid
        · rw [List.filter_cons_of_pos (by simp [hv]),
            List.filter_cons_of_pos (by simp [hv])]
          simp [ih h']
        · rw [List.filter_cons_of_neg (by simp [hv]),
            List.filter_cons_of_neg (by simp [hv])]
          exact ih h'

/-- Rewriting a record without changing its `browser_` preserves every
window's observer list. -/
theorem observersOf_setTab_browser_eq (s : State) (k : SurfaceId) (r : TabHelper)
    (wid : WindowId) (h : r.browser_ = (s.tab k).browser_) :
    observersOf (s.setTab k r) wid = observersOf s wid := by
  unfold observersOf
  simp only [State.setTab]
  exact filter_map_assocSet s.tabs k r wid h

/-- Explicit form of `ReplaceWebContentsAt` when the replaced occupant's
helper is among the observers exactly once: the strip slot is replaced
and `TabReplacedAt` fires once, on that helper. -/
theorem replaceWebContentsAt_eq (s : State) (wid : WindowId) (win : Window)
    (j : Nat) (old new : SurfaceId) (l1 l2 : List SurfaceId)
    (hwin : s.findWindow wid = some win)
    (hget : win.strip.get? j = some old)
    (hobs : observersOf s wid = l1 ++ old :: l2)
    (h1 : old ∉ l1) (h2 : old ∉ l2) :
    ReplaceWebContentsAt s wid (Int.ofNat j) new =
      ((TabReplacedAt { s with windows := setWindowStrip s.windows wid (win.strip.set j new) } old old new (Int.ofNat j)).1,
       (TabReplacedAt { s with windows := setWindowStrip s.windows wid (win.strip.set j new) } old old new (Int.ofNat j)).2) := by
  unfold ReplaceWebContentsAt
  simp only [hwin]
  rw [if_neg (show ¬(Int.ofNat j < 0) from Int.not_lt.mpr (Int.ofNat_nonneg j))]
  rw [show (Int.ofNat j).toNat = j from rfl]
  simp only [hget]
  have hobs2 : observersOf { s with windows := setWindowStrip s.windows wid (win.strip.set j new) } wid = l1 ++ old :: l2 := hobs
  rw [hobs2]
  rw [dispatch_single _ old (fun st ob hob => tabReplacedAt_skip st ob old new (Int.ofNat j) (Ne.symm hob)) l1 l2 _ [] h1 h2]
  simp

/-!  Projections through plain structure updates. -/

@[simp] theorem State.tab_mk_windows (s : State) (ws : List Window) (k : SurfaceId) :
    State.tab { s with windows := ws } k = s.tab k := rfl

@[simp] theorem State.guest_mk_windows (s : State) (ws : List Window) (k : SurfaceId) :
    State.guest { s with windows := ws } k = s.guest k := rfl

@[simp] theorem State.navOf_mk_windows (s : State) (ws : List Window) (k : SurfaceId) :
    State.navOf { s with windows := ws } k = s.navOf k := rfl

@[simp] theorem State.tab_mk_nextId (s : State) (n : SurfaceId) (k : SurfaceId) :
    State.tab { s with nextId := n } k = s.tab k := rfl

@[simp] theorem State.guest_mk_nextId (s : State) (n : SurfaceId) (k : SurfaceId) :
    State.guest { s with nextId := n } k = s.guest k := rfl

@[simp] theorem State.navOf_mk_nextId (s : State) (n : SurfaceId) (k : SurfaceId) :
    State.navOf { s with nextId := n } k = s.navOf k := rfl

@[simp] theorem observersOf_setGuest (s : State) (k : SurfaceId) (g : Guest)
    (wid : WindowId) : observersOf (s.setGuest k g) wid = observersOf s wid := rfl

@[simp] theorem observersOf_setNav (s : State) (k : SurfaceId) (n : List Nat)
    (wid : WindowId) : observersOf (s.setNav k n) wid = observersOf s wid := rfl

@[simp] theorem observersOf_mk_nextId (s : State) (n : SurfaceId) (wid : WindowId) :
    observersOf { s with nextId := n } wid = observersOf s wid := rfl

@[simp] theorem observersOf_mk_windows (s : State) (ws : List Window) (wid : WindowId) :
    observersOf { s with windows := ws } wid = observersOf s wid := rfl

/-!  The state after the placeholder-manufacturing prefix of
`DetachGuest`. -/

theorem detachSetup_tab_self (s : State) (sid : SurfaceId) (hne : sid ≠ s.nextId) :
    (detachPlaceholderSetup s sid).tab sid = { s.tab sid with window_closing_ := false } := by
  have hne2 : s.nextId ≠ sid := Ne.symm hne
  unfold detachPlaceholderSetup SetPlaceholder
  simp [State.tab_setTab_same, State.tab_setTab_ne, hne, hne2]

theorem detachSetup_tab_null (s : State) (sid : SurfaceId) (hne : sid ≠ s.nextId) :
    (detachPlaceholderSetup s sid).tab s.nextId =
      { index_ := (s.tab sid).index_, pinned_ := (s.tab sid).pinned_,
        is_placeholder_ := true, window_closing_ := (s.tab sid).window_closing_,
        browser_ := none, swid := -1 } := by
  have hne2 : s.nextId ≠ sid := Ne.symm hne
  unfold detachPlaceholderSetup SetPlaceholder
  simp [State.tab_setTab_same, State.tab_setTab_ne, hne, hne2, defaultTabHelper, kNoTab]

theorem detachSetup_windows (s : State) (sid : SurfaceId) :
    (detachPlaceholderSetup s sid).windows = s.windows := by
  unfold detachPlaceholderSetup SetPlaceholder
  simp

theorem detachSetup_nextId (s : State) (sid : SurfaceId) :
    (detachPlaceholderSetup s sid).nextId = s.nextId + 1 := by
  unfold detachPlaceholderSetup SetPlaceholder
  simp

theorem detachSetup_navOf_null (s : State) (sid : SurfaceId) :
    (detachPlaceholderSetup s sid).navOf s.nextId = s.navOf sid := by
  unfold detachPlaceholderSetup SetPlaceholder
  simp

theorem detachSetup_guest (s : State) (sid k : SurfaceId) (hk : k ≠ s.nextId) :
    (detachPlaceholderSetup s sid).guest k = s.guest k := by
  have hk2 : s.nextId ≠ k := Ne.symm hk
  unfold detachPlaceholderSetup SetPlaceholder
  simp [State.guest_setGuest_ne, hk2]

theorem detachSetup_guest_null (s : State) (sid : SurfaceId) :
    (detachPlaceholderSetup s sid).guest s.nextId = defaultGuest := by
  unfold detachPlaceholderSetup SetPlaceholder
  simp

theorem detachSetup_observersOf (s : State) (sid : SurfaceId) (w : WindowId)
    (hfresh : (s.tab s.nextId).browser_ = none) :
    observersOf (detachPlaceholderSetup s sid) w = observersOf s w := by
  unfold detachPlaceholderSetup SetPlaceholder
  simp [observersOf_setTab_browser_eq, hfresh, defaultTabHelper]

/-!  Claim C7. -/

/-- Claim C7: `AttachGuest(windowId, slotIndex)`, under the precondition
that the surface is not already attached, returns `false` and mutates no
state whenever no window in the registry has the given id; when such a
window exists (and a matching occupant is found, as the source's
`GetTabStripIndex` + `ReplaceWebContentsAt` presuppose), it replaces the
occupant of that slot in that window's strip with this surface, records
the slot index, and returns `true`. -/
theorem claim7_attach_refusal_and_success (s : State) (sid : SurfaceId)
    (window_id idx : Int) (hguest : (s.guest sid).attached = false) :
    (s.windows.find? (fun w => w.wid = window_id) = none →
      AttachGuest s sid window_id idx = (s, false, [])) ∧
    (∀ win old j l1 l2,
      s.windows.find? (fun w => w.wid = window_id) = some win →
      GetTabStripIndex (s.setTab sid { s.tab sid with index_ := idx }) window_id idx =
        Int.ofNat j →
      win.strip.get? j = some old →
      old ≠ sid →
      (s.tab old).browser_ = some win.wid →
      (s.tab old).index_ = idx →
      observersOf s win.wid = l1 ++ old :: l2 →
      old ∉ l1 → old ∉ l2 →
      (AttachGuest s sid window_id idx).2.1 = true ∧
      ((AttachGuest s sid window_id idx).1.tab sid).index_ = idx ∧
      ((AttachGuest s sid window_id idx).1.tab sid).browser_ = some win.wid ∧
      (AttachGuest s sid window_id idx).1.findWindow win.wid =
        some { win with strip := win.strip.set j sid }) := by
  constructor
  · intro hnone
    unfold AttachGuest
    simp only [hnone]
  · intro win old j l1 l2 hwin hstat hget hne hbro hoidx hobs hl1 hl2
    have hne2 : sid ≠ old := Ne.symm hne
    have hwid : win.wid = window_id := by simpa using List.find?_some hwin
    have hfw : (s.setTab sid { s.tab sid with index_ := idx }).findWindow win.wid =
        some win := by
      unfold State.findWindow
      rw [State.windows_setTab, hwid]
      exact hwin
    have hobs1 : observersOf (s.setTab sid { s.tab sid with index_ := idx }) win.wid =
        l1 ++ old :: l2 := by
      rw [observersOf_setTab_browser_eq s sid { s.tab sid with index_ := idx } win.wid rfl]
      exact hobs
    have hb2 : (({ s.setTab sid { s.tab sid with index_ := idx } with windows := setWindowStrip (s.setTab sid { s.tab sid with index_ := idx }).windows win.wid (win.strip.set j sid) } : State).tab old).browser_ = some win.wid := by
      rw [State.tab_mk_windows, State.tab_setTab_ne s _ hne2]
      exact hbro
    have hrep := replaceWebContentsAt_eq (s.setTab sid { s.tab sid with index_ := idx })
      win.wid win j old sid l1 l2 hfw hget hobs1 hl1 hl2
    have hrepl := tabReplacedAt_self_eq
      ({ s.setTab sid { s.tab sid with index_ := idx } with windows := setWindowStrip (s.setTab sid { s.tab sid with index_ := idx }).windows win.wid (win.strip.set j sid) } : State)
      old sid (Int.ofNat j) win.wid hne2 hb2
    unfold AttachGuest
    simp only [hwin]
    rw [hstat, hrep, hrepl]
    refine ⟨trivial, ?_, ?_, ?_⟩
    · simp only [State.tab_setGuest, State.tab_setTab_same]
      rw [State.tab_mk_windows, State.tab_setTab_ne s _ hne2]
      simp [hoidx]
    · simp only [State.tab_setGuest, State.tab_setTab_same]
    · unfold State.findWindow
      simp only [State.windows_setGuest, State.windows_setTab]
      exact findWindow_setWindowStrip s.windows win.wid win (win.strip.set j sid)
        (by rw [hwid]; exact hwin)

/-- Witness for claim C7 at `stE`: attaching surface 9 to window 2 at
logical index 4 replaces occupant 3 and succeeds; attaching to the
nonexistent window 99 is refused with no state change. -/
theorem claim7_attach_refusal_and_success_witness :
    (AttachGuest stE 9 99 4 = (stE, false, [])) ∧
    (AttachGuest stE 9 2 4).2.1 = true ∧
    ((AttachGuest stE 9 2 4).1.tab 9).index_ = 4 := by
  have h1 := (claim7_attach_refusal_and_success stE 9 99 4 (by decide)).1 (by decide)
  have h2 := (claim7_attach_refusal_and_success stE 9 2 4 (by decide)).2
    { wid := 2, strip := [3] } 3 0 [] [] (by decide) (by decide) (by decide)
    (by decide) (by decide) (by decide) (by decide) (by decide) (by decide)
  exact ⟨h1, h2.1, h2.2.1⟩

/-!  Claim C2. -/

/-- Counterexample to claim C2 as stated: at `stA`, where surface 0 is
attached, `DetachGuest` returns surface 1 — the newly created
placeholder (its record is the placeholder) — not the retired original
surface 0. -/
theorem claim2_counterexample :
    (stA.guest 0).attached = true ∧
    (DetachGuest stA 0).2.1 = some 1 ∧
    ((DetachGuest stA 0).1.tab 1).is_placeholder_ = true ∧
    (DetachGuest stA 0).2.1 ≠ some 0 := by decide

/-- Claim C2 as amended: for a record whose surface is attached,
`DetachGuest` creates a placeholder surface seeded with a copy of the
detaching surface's navigation history, transfers `slot_index`, `pinned`
and `pending_close` to the placeholder's new record, clears
`pending_close` on the original record, marks the placeholder's record
`is_placeholder = true`, replaces the strip slot with the placeholder,
and returns the newly created placeholder surface (not the original) to
the caller; for a record that is not attached it returns null and
changes nothing. -/
theorem claim2_detach_guest (s : State) (sid : SurfaceId) (w : WindowId)
    (win : Window) (j : Nat) (l1 l2 : List SurfaceId)
    (hatt : (s.guest sid).attached = true)
    (hb : (s.tab sid).browser_ = some w)
    (hwin : s.findWindow w = some win)
    (hj : win.strip.findIdx? (fun x => x == sid) = some j)
    (hget : win.strip.get? j = some sid)
    (hne : sid ≠ s.nextId)
    (hfresh : (s.tab s.nextId).browser_ = none)
    (hobs : observersOf s w = l1 ++ sid :: l2)
    (hl1 : sid ∉ l1) (hl2 : sid ∉ l2) :
    (DetachGuest s sid).2.1 = some s.nextId ∧
    ((DetachGuest s sid).1.tab s.nextId).index_ = (s.tab sid).index_ ∧
    ((DetachGuest s sid).1.tab s.nextId).pinned_ = (s.tab sid).pinned_ ∧
    ((DetachGuest s sid).1.tab s.nextId).window_closing_ = (s.tab sid).window_closing_ ∧
    ((DetachGuest s sid).1.tab s.nextId).is_placeholder_ = true ∧
    ((DetachGuest s sid).1.tab sid).window_closing_ = false ∧
    (DetachGuest s sid).1.navOf s.nextId = s.navOf sid ∧
    (DetachGuest s sid).1.findWindow w = some { win with strip := win.strip.set j s.nextId } ∧
    (∀ s' : State, ∀ sid' : SurfaceId, (s'.guest sid').attached = false →
      DetachGuest s' sid' = (s', none, [])) := by
  have hne2 : s.nextId ≠ sid := Ne.symm hne
  have hts : (detachPlaceholderSetup s sid).tab sid =
      { s.tab sid with window_closing_ := false } := detachSetup_tab_self s sid hne
  have htn : (detachPlaceholderSetup s sid).tab s.nextId =
      { index_ := (s.tab sid).index_, pinned_ := (s.tab sid).pinned_,
        is_placeholder_ := true, window_closing_ := (s.tab sid).window_closing_,
        browser_ := none, swid := -1 } := detachSetup_tab_null s sid hne
  have hbs : ((detachPlaceholderSetup s sid).tab sid).browser_ = some w := by
    rw [hts]
    exact hb
  have hfw7 : (detachPlaceholderSetup s sid).findWindow w = some win := by
    unfold State.findWindow
    rw [detachSetup_windows]
    exact hwin
  have hidx : getTabStripIndexOf (detachPlaceholderSetup s sid) sid = Int.ofNat j := by
    unfold getTabStripIndexOf
    simp only [hbs, hfw7, hj]
  have hobs7 : observersOf (detachPlaceholderSetup s sid) w = l1 ++ sid :: l2 := by
    rw [detachSetup_observersOf s sid w hfresh]
    exact hobs
  have hrep := replaceWebContentsAt_eq (detachPlaceholderSetup s sid) w win j sid
    s.nextId l1 l2 hfw7 hget hobs7 hl1 hl2
  have hb8 : (({ detachPlaceholderSetup s sid with windows := setWindowStrip (detachPlaceholderSetup s sid).windows w (win.strip.set j s.nextId) } : State).tab sid).browser_ = some w := by
    rw [State.tab_mk_windows]
    exact hbs
  have hrepl := tabReplacedAt_self_eq
    ({ detachPlaceholderSetup s sid with windows := setWindowStrip (detachPlaceholderSetup s sid).windows w (win.strip.set j s.nextId) } : State)
    sid s.nextId (Int.ofNat j) w hne2 hb8
  unfold DetachGuest
  rw [if_pos hatt]
  simp only [hbs, hidx]
  rw [hrep, hrepl]
  refine ⟨trivial, ?_, ?_, ?_, ?_, ?_, ?_, ?_, ?_⟩
  · simp [State.tab_setGuest, State.tab_setTab_same, State.tab_mk_windows, htn, hts]
  · simp [State.tab_setGuest, State.tab_setTab_same, State.tab_mk_windows, htn, hts]
  · simp [State.tab_setGuest, State.tab_setTab_same, State.tab_mk_windows, htn, hts]
  · simp [State.tab_setGuest, State.tab_setTab_same, State.tab_mk_windows, htn, hts]
  · simp only [State.tab_setGuest]
    rw [State.tab_setTab_ne _ _ hne2, State.tab_setTab_same]
    simp only [State.tab_mk_windows, hts]
  · simp only [State.navOf_setGuest, State.navOf_setTab, State.navOf_mk_windows]
    exact detachSetup_navOf_null s sid
  · exact findWindow_setWindowStrip s.windows w win (win.strip.set j s.nextId) hwin
  · intro s' sid' h
    rw [if_neg (by simp [h])]

/-- Witness for claim C2 at `stA`: surface 0 (pinned, history `[10, 11]`)
is detached; the returned surface is the fresh placeholder 1, which
inherits slot 0, the pin flag and the history, while window 1's strip now
holds the placeholder. -/
theorem claim2_detach_guest_witness :
    (DetachGuest stA 0).2.1 = some 1 ∧
    ((DetachGuest stA 0).1.tab 1).pinned_ = (stA.tab 0).pinned_ ∧
    ((DetachGuest stA 0).1.tab 1).is_placeholder_ = true ∧
    (DetachGuest stA 0).1.navOf 1 = stA.navOf 0 ∧
    (DetachGuest stA 0).1.findWindow 1 = some { wid := 1, strip := [1] } := by
  have h := claim2_detach_guest stA 0 1 { wid := 1, strip := [0] } 0 [] []
    (by decide) (by decide) (by decide) (by decide) (by decide) (by decide)
    (by decide) (by decide) (by decide) (by decide)
  exact ⟨h.1, h.2.2.1, h.2.2.2.2.1, h.2.2.2.2.2.2.1, h.2.2.2.2.2.2.2.1⟩

end TabSpec
